import Mathlib

/-!
# VoidGuard AI Governance Suite — compliance engine, shallow embedding

This file embeds the core compliance scoring and risk-assessment engine of
`src/services/VoidGuardService.js` (class `VoidGuardSafetyEngine`) in Lean 4
and proves the specification claims about it.

Modelling conventions:
* JS numbers are embedded as exact rationals `ℚ`; every constant appearing in
  the source (penalty factors, weights, thresholds) is a short decimal
  fraction, so all source computations are exact in `ℚ`.
* A JS descriptor field that the code tests with `!x` is embedded as `Bool`
  (absent/falsy ↦ `false`); fields tested with `!x || !x.enabled` (resp.
  `.conducted`) are `Option Toggle` (resp. `Option Conducted`);
  `ethicalBoundaries`, tested with `!x || x.length === 0`, is
  `Option (List String)`.
* Fallible code is embedded with `Except`: a descriptor that is not
  inspectable (JS `undefined`/`null`) is the `none` case of
  `Option AISystem`, and the call of the nowhere-defined method
  `this.checkRegulatoryCompliance` (line 126) is a `typeError`.
* Environment nondeterminism (uuid generation, wall-clock timestamps,
  logging) is outside the model: audit events enter `logAuditEvent` already
  carrying their `id` and `timestamp` fields, and the display-only
  `summary` string of `assessRisk` is omitted.
-/

/-- Severity of an issue: the `type` field of the objects pushed onto the
per-category `checks` array (`'warning'` or `'error'`). -/
inductive Severity where
  | warning
  | error
deriving DecidableEq, Repr

/-- One issue appended by a category check: `{ type, message }`. -/
structure Issue where
  type : Severity
  message : String
deriving DecidableEq, Repr

/-- Derived per-category status (`'pass'` / `'warning'` / `'fail'`). -/
inductive Status where
  | pass
  | warning
  | fail
deriving DecidableEq, Repr

/-- A nested descriptor object whose `enabled` flag the code inspects
(`encryption`, `explainability`, `humanOversight`, `auditTrail`). -/
structure Toggle where
  enabled : Bool
deriving DecidableEq, Repr

/-- A nested descriptor object whose `conducted` flag the code inspects
(`biasTesting`, `adversarialTesting`). -/
structure Conducted where
  conducted : Bool
deriving DecidableEq, Repr

/-- The AI-system descriptor: the named flags read by the seven category
checks of `VoidGuardSafetyEngine`.  Every field defaults to "absent". -/
structure AISystem where
  id : Option String := none
  ethicalBoundaries : Option (List String) := none
  harmPrevention : Bool := false
  valuesAlignment : Bool := false
  encryption : Option Toggle := none
  dataMinimization : Bool := false
  consentManagement : Bool := false
  biasTesting : Option Conducted := none
  fairnessMetrics : Bool := false
  datasetDiversity : Bool := false
  explainability : Option Toggle := none
  decisionLogging : Bool := false
  modelDocumentation : Bool := false
  humanOversight : Option Toggle := none
  manualOverride : Bool := false
  escalationProcedures : Bool := false
  adversarialTesting : Option Conducted := none
  errorHandling : Bool := false
  performanceMonitoring : Bool := false
  responsibilityMatrix : Bool := false
  auditTrail : Option Toggle := none
  incidentResponse : Bool := false
deriving DecidableEq, Repr

/-- Result of one category check: `{ score, checks, status }`. -/
structure CategoryResult where
  score : ℚ
  checks : List Issue
  status : Status
deriving DecidableEq, Repr

/-- The status ternary used verbatim at the end of every category check:
`score >= 0.8 ? 'pass' : score >= 0.6 ? 'warning' : 'fail'`. -/
def statusOf (score : ℚ) : Status :=
  if score ≥ 8/10 then .pass else if score ≥ 6/10 then .warning else .fail

/-! ## Sub-condition predicates

One `Bool`-valued predicate per guard in the source, in source order.
`true` means the guard fires (flag absent/disabled) and the deduction and
issue are applied. -/

def noEthicalBoundaries (sys : AISystem) : Bool :=
  match sys.ethicalBoundaries with
  | none => true
  | some l => l.isEmpty

def noHarmPrevention (sys : AISystem) : Bool := !sys.harmPrevention

def noValuesAlignment (sys : AISystem) : Bool := !sys.valuesAlignment

def noEncryption (sys : AISystem) : Bool :=
  match sys.encryption with
  | none => true
  | some t => !t.enabled

def noDataMinimization (sys : AISystem) : Bool := !sys.dataMinimization

def noConsentManagement (sys : AISystem) : Bool := !sys.consentManagement

def noBiasTesting (sys : AISystem) : Bool :=
  match sys.biasTesting with
  | none => true
  | some t => !t.conducted

def noFairnessMetrics (sys : AISystem) : Bool := !sys.fairnessMetrics

def noDatasetDiversity (sys : AISystem) : Bool := !sys.datasetDiversity

def noExplainability (sys : AISystem) : Bool :=
  match sys.explainability with
  | none => true
  | some t => !t.enabled

def noDecisionLogging (sys : AISystem) : Bool := !sys.decisionLogging

def noModelDocumentation (sys : AISystem) : Bool := !sys.modelDocumentation

def noHumanOversight (sys : AISystem) : Bool :=
  match sys.humanOversight with
  | none => true
  | some t => !t.enabled

def noManualOverride (sys : AISystem) : Bool := !sys.manualOverride

def noEscalationProcedures (sys : AISystem) : Bool := !sys.escalationProcedures

def noAdversarialTesting (sys : AISystem) : Bool :=
  match sys.adversarialTesting with
  | none => true
  | some t => !t.conducted

def noErrorHandling (sys : AISystem) : Bool := !sys.errorHandling

def noPerformanceMonitoring (sys : AISystem) : Bool := !sys.performanceMonitoring

def noResponsibilityMatrix (sys : AISystem) : Bool := !sys.responsibilityMatrix

def noAuditTrail (sys : AISystem) : Bool :=
  match sys.auditTrail with
  | none => true
  | some t => !t.enabled

def noIncidentResponse (sys : AISystem) : Bool := !sys.incidentResponse

/-! ## The seven category checks

Each check in the source starts `let score = 1.0`, multiplies `score` by a
fixed penalty for each firing guard while pushing one issue, and returns
`{ score: Math.max(score, 0), checks, status }` where `status` is computed
from the (unclamped) running `score` variable.  We factor each check into
its running score (`…Score`, the value of the `score` variable at the end)
and its issue list, exactly in source order. -/

def ethicalScore (sys : AISystem) : ℚ :=
  let score : ℚ := 1
  let score := if noEthicalBoundaries sys then score * (8/10) else score
  let score := if noHarmPrevention sys then score * (6/10) else score
  let score := if noValuesAlignment sys then score * (9/10) else score
  score

def ethicalIssues (sys : AISystem) : List Issue :=
  (if noEthicalBoundaries sys then [⟨.warning, "No ethical boundaries defined"⟩] else []) ++
  (if noHarmPrevention sys then [⟨.error, "Harm prevention mechanisms not implemented"⟩] else []) ++
  (if noValuesAlignment sys then [⟨.warning, "Human values alignment not documented"⟩] else [])

def checkEthicalGuidelines (sys : AISystem) : CategoryResult :=
  { score := max (ethicalScore sys) 0
    checks := ethicalIssues sys
    status := statusOf (ethicalScore sys) }

def dataPrivacyScore (sys : AISystem) : ℚ :=
  let score : ℚ := 1
  let score := if noEncryption sys then score * (5/10) else score
  let score := if noDataMinimization sys then score * (8/10) else score
  let score := if noConsentManagement sys then score * (6/10) else score
  score

def dataPrivacyIssues (sys : AISystem) : List Issue :=
  (if noEncryption sys then [⟨.error, "Data encryption not enabled"⟩] else []) ++
  (if noDataMinimization sys then [⟨.warning, "Data minimization principles not applied"⟩] else []) ++
  (if noConsentManagement sys then [⟨.error, "User consent management not implemented"⟩] else [])

def checkDataPrivacy (sys : AISystem) : CategoryResult :=
  { score := max (dataPrivacyScore sys) 0
    checks := dataPrivacyIssues sys
    status := statusOf (dataPrivacyScore sys) }

def biasScore (sys : AISystem) : ℚ :=
  let score : ℚ := 1
  let score := if noBiasTesting sys then score * (4/10) else score
  let score := if noFairnessMetrics sys then score * (8/10) else score
  let score := if noDatasetDiversity sys then score * (9/10) else score
  score

def biasIssues (sys : AISystem) : List Issue :=
  (if noBiasTesting sys then [⟨.error, "Bias testing not conducted"⟩] else []) ++
  (if noFairnessMetrics sys then [⟨.warning, "Fairness metrics not defined"⟩] else []) ++
  (if noDatasetDiversity sys then [⟨.warning, "Dataset diversity not validated"⟩] else [])

def checkBias (sys : AISystem) : CategoryResult :=
  { score := max (biasScore sys) 0
    checks := biasIssues sys
    status := statusOf (biasScore sys) }

def transparencyScore (sys : AISystem) : ℚ :=
  let score : ℚ := 1
  let score := if noExplainability sys then score * (5/10) else score
  let score := if noDecisionLogging sys then score * (8/10) else score
  let score := if noModelDocumentation sys then score * (9/10) else score
  score

def transparencyIssues (sys : AISystem) : List Issue :=
  (if noExplainability sys then [⟨.error, "AI explainability not implemented"⟩] else []) ++
  (if noDecisionLogging sys then [⟨.warning, "Decision logging not implemented"⟩] else []) ++
  (if noModelDocumentation sys then [⟨.warning, "Model documentation incomplete"⟩] else [])

def checkTransparency (sys : AISystem) : CategoryResult :=
  { score := max (transparencyScore sys) 0
    checks := transparencyIssues sys
    status := statusOf (transparencyScore sys) }

def humanControlScore (sys : AISystem) : ℚ :=
  let score : ℚ := 1
  let score := if noHumanOversight sys then score * (3/10) else score
  let score := if noManualOverride sys then score * (5/10) else score
  let score := if noEscalationProcedures sys then score * (9/10) else score
  score

def humanControlIssues (sys : AISystem) : List Issue :=
  (if noHumanOversight sys then [⟨.error, "Human oversight not implemented"⟩] else []) ++
  (if noManualOverride sys then [⟨.error, "Manual override not available"⟩] else []) ++
  (if noEscalationProcedures sys then [⟨.warning, "Escalation procedures not defined"⟩] else [])

def checkHumanControl (sys : AISystem) : CategoryResult :=
  { score := max (humanControlScore sys) 0
    checks := humanControlIssues sys
    status := statusOf (humanControlScore sys) }

def robustnessScore (sys : AISystem) : ℚ :=
  let score : ℚ := 1
  let score := if noAdversarialTesting sys then score * (8/10) else score
  let score := if noErrorHandling sys then score * (6/10) else score
  let score := if noPerformanceMonitoring sys then score * (9/10) else score
  score

def robustnessIssues (sys : AISystem) : List Issue :=
  (if noAdversarialTesting sys then [⟨.warning, "Adversarial testing not conducted"⟩] else []) ++
  (if noErrorHandling sys then [⟨.error, "Error handling mechanisms not implemented"⟩] else []) ++
  (if noPerformanceMonitoring sys then [⟨.warning, "Performance monitoring not implemented"⟩] else [])

def checkRobustness (sys : AISystem) : CategoryResult :=
  { score := max (robustnessScore sys) 0
    checks := robustnessIssues sys
    status := statusOf (robustnessScore sys) }

def accountabilityScore (sys : AISystem) : ℚ :=
  let score : ℚ := 1
  let score := if noResponsibilityMatrix sys then score * (6/10) else score
  let score := if noAuditTrail sys then score * (5/10) else score
  let score := if noIncidentResponse sys then score * (8/10) else score
  score

def accountabilityIssues (sys : AISystem) : List Issue :=
  (if noResponsibilityMatrix sys then [⟨.error, "Responsibility matrix not defined"⟩] else []) ++
  (if noAuditTrail sys then [⟨.error, "Audit trail not enabled"⟩] else []) ++
  (if noIncidentResponse sys then [⟨.warning, "Incident response procedures not defined"⟩] else [])

def checkAccountability (sys : AISystem) : CategoryResult :=
  { score := max (accountabilityScore sys) 0
    checks := accountabilityIssues sys
    status := statusOf (accountabilityScore sys) }

/-! ## Aggregation layer -/

/-- The `checks` object assembled by `performSafetyChecks` (lines 114–122):
one entry per category, in the insertion order of the object literal.  Each
field is an `Option`, mirroring JS property presence, which
`calculateComplianceScore` tests with `if (safetyChecks[check])`. -/
structure SafetyChecks where
  ethicalGuidelines : Option CategoryResult := none
  dataPrivacy : Option CategoryResult := none
  bias : Option CategoryResult := none
  transparency : Option CategoryResult := none
  humanControl : Option CategoryResult := none
  robustness : Option CategoryResult := none
  accountability : Option CategoryResult := none
deriving DecidableEq, Repr

/-- The entries of the checks object in JS insertion order, as produced by
`Object.entries` / `Object.values` in `assessRisk` and
`generateRecommendations`: present categories only. -/
def SafetyChecks.toList (sc : SafetyChecks) : List (String × CategoryResult) :=
  (match sc.ethicalGuidelines with | some c => [("ethicalGuidelines", c)] | none => []) ++
  (match sc.dataPrivacy with | some c => [("dataPrivacy", c)] | none => []) ++
  (match sc.bias with | some c => [("bias", c)] | none => []) ++
  (match sc.transparency with | some c => [("transparency", c)] | none => []) ++
  (match sc.humanControl with | some c => [("humanControl", c)] | none => []) ++
  (match sc.robustness with | some c => [("robustness", c)] | none => []) ++
  (match sc.accountability with | some c => [("accountability", c)] | none => [])

/-- The fixed weight table of `calculateComplianceScore`, in the insertion
order of the `weights` object literal (lines 368–376). -/
def weights : List (String × ℚ) :=
  [("ethicalGuidelines", 2/10), ("dataPrivacy", 15/100), ("bias", 15/100),
   ("transparency", 15/100), ("humanControl", 2/10), ("robustness", 1/10),
   ("accountability", 5/100)]

/-- Property lookup `safetyChecks[check]` for the seven weighted names. -/
def SafetyChecks.get (sc : SafetyChecks) : String → Option CategoryResult
  | "ethicalGuidelines" => sc.ethicalGuidelines
  | "dataPrivacy" => sc.dataPrivacy
  | "bias" => sc.bias
  | "transparency" => sc.transparency
  | "humanControl" => sc.humanControl
  | "robustness" => sc.robustness
  | "accountability" => sc.accountability
  | _ => none

/-- `calculateComplianceScore` (lines 367–389): accumulate
`totalScore += score * weight` and `totalWeight += weight` over the present
categories, then return `totalScore / totalWeight`, or `0` when
`totalWeight` is not positive. -/
def calculateComplianceScore (safetyChecks : SafetyChecks) : ℚ :=
  let acc := weights.foldl
    (fun (acc : ℚ × ℚ) (entry : String × ℚ) =>
      match safetyChecks.get entry.1 with
      | some check => (acc.1 + check.score * entry.2, acc.2 + entry.2)
      | none => acc)
    (0, 0)
  if acc.2 > 0 then acc.1 / acc.2 else 0

/-- Discrete risk level (`'low'` / `'medium'` / `'high'`). -/
inductive RiskLevel where
  | low
  | medium
  | high
deriving DecidableEq, Repr

/-- Risk assessment returned by `assessRisk`; the display-only `summary`
string is omitted from the model. -/
structure RiskAssessment where
  level : RiskLevel
  criticalFailures : Nat
  warnings : Nat
deriving DecidableEq, Repr

/-- `assessRisk` (lines 395–414): count categories that are `fail` and hold
an error issue, total the warning issues, classify. -/
def assessRisk (safetyChecks : SafetyChecks) : RiskAssessment :=
  let vals := safetyChecks.toList.map Prod.snd
  let criticalFailures : Nat :=
    (vals.filter (fun check =>
      check.status == Status.fail && check.checks.any (fun c => c.type == Severity.error))).length
  let warnings : Nat := vals.foldl
    (fun total check => total + (check.checks.filter (fun c => c.type == Severity.warning)).length) 0
  let riskLevel :=
    if criticalFailures > 2 || warnings > 5 then RiskLevel.high
    else if criticalFailures > 0 || warnings > 2 then RiskLevel.medium
    else RiskLevel.low
  { level := riskLevel, criticalFailures := criticalFailures, warnings := warnings }

/-- Recommendation priority. -/
inductive Priority where
  | high
  | medium
deriving DecidableEq, Repr

/-- One remediation recommendation. -/
structure Recommendation where
  priority : Priority
  category : String
  issue : String
  action : String
deriving DecidableEq, Repr

/-- The nested `actionMap` literal of `getRecommendedAction`
(lines 459–474), as an association list in source order. -/
def actionMap : List (String × List (String × String)) :=
  [("ethicalGuidelines",
    [("No ethical boundaries defined", "Define clear ethical boundaries and prohibited use cases"),
     ("Harm prevention mechanisms not implemented", "Implement content filtering and harm prevention systems"),
     ("Human values alignment not documented", "Document human values alignment methodology")]),
   ("dataPrivacy",
    [("Data encryption not enabled", "Enable end-to-end encryption for all data processing"),
     ("User consent management not implemented", "Implement comprehensive consent management system"),
     ("Data minimization principles not applied", "Review and minimize data collection requirements")]),
   ("humanControl",
    [("Human oversight not implemented", "Implement mandatory human oversight for critical decisions"),
     ("Manual override not available", "Add manual override capabilities for all automated decisions")])]

/-- `getRecommendedAction` (lines 458–477):
`actionMap[category]?.[issue] || 'Review and address this safety concern'`. -/
def getRecommendedAction (category issue : String) : String :=
  match (actionMap.lookup category).bind (fun m => m.lookup issue) with
  | some action => action
  | none => "Review and address this safety concern"

/-- `generateRecommendations` (lines 420–452): pass 1 pushes a `high`
recommendation per error issue inside each failing category; pass 2 pushes
a `medium` recommendation per warning issue in every category. -/
def generateRecommendations (safetyChecks : SafetyChecks) : List Recommendation :=
  let recommendations : List Recommendation := []
  let recommendations := recommendations ++
    safetyChecks.toList.flatMap (fun entry =>
      if entry.2.status == Status.fail then
        (entry.2.checks.filter (fun c => c.type == Severity.error)).map (fun issue =>
          { priority := Priority.high, category := entry.1, issue := issue.message
            action := getRecommendedAction entry.1 issue.message })
      else [])
  let recommendations := recommendations ++
    safetyChecks.toList.flatMap (fun entry =>
      (entry.2.checks.filter (fun c => c.type == Severity.warning)).map (fun warning =>
        { priority := Priority.medium, category := entry.1, issue := warning.message
          action := getRecommendedAction entry.1 warning.message }))
  recommendations

/-! ## Audit trail -/

/-- A stored audit event.  `id` and `timestamp` are assigned by the caller
in this model (uuid generation and the wall clock are environment
nondeterminism); the `result` summary of a validation event is inlined. -/
structure AuditEvent where
  id : String := ""
  type : String := ""
  timestamp : Nat := 0
  status : String := ""
  score : ℚ := 0
  riskLevel : String := ""
deriving DecidableEq, Repr

/-- `logAuditEvent` (lines 483–496): push the event, then keep only the
last 1000 entries (`this.auditLog.slice(-1000)`) when the length
exceeds 1000. -/
def logAuditEvent (auditLog : List AuditEvent) (event : AuditEvent) : List AuditEvent :=
  let auditLog := auditLog ++ [event]
  if auditLog.length > 1000 then auditLog.drop (auditLog.length - 1000) else auditLog

/-- Filters accepted by `getAuditLog`. -/
structure AuditFilters where
  type : Option String := none
  startDate : Option Nat := none
  endDate : Option Nat := none

/-- `getAuditLog` (lines 503–519): snapshot copy filtered by exact type and
inclusive date bounds. -/
def getAuditLog (auditLog : List AuditEvent) (filters : AuditFilters) : List AuditEvent :=
  let log := auditLog
  let log := match filters.type with
    | some t => log.filter (fun event => event.type == t)
    | none => log
  let log := match filters.startDate with
    | some s => log.filter (fun event => s ≤ event.timestamp)
    | none => log
  let log := match filters.endDate with
    | some e => log.filter (fun event => event.timestamp ≤ e)
    | none => log
  log

/-- Appending a whole sequence of audit events, oldest first. -/
def appendAll (auditLog : List AuditEvent) (events : List AuditEvent) : List AuditEvent :=
  events.foldl logAuditEvent auditLog

/-! ## Orchestration -/

/-- Engine configuration; defaults as resolved by the constructor with an
empty `config` argument and no environment overrides. -/
structure EngineConfig where
  complianceThreshold : ℚ := 95/100
  auditEnabled : Bool := false
  transparencyLevel : String := "full"
deriving Repr

/-- An engine instance: configuration plus in-memory audit log. -/
structure Engine where
  config : EngineConfig := {}
  auditLog : List AuditEvent := []

/-- Validation context; `regulatory` is the truthiness of
`context.regulatory`. -/
structure Context where
  regulatory : Bool := false
deriving Repr

/-- Errors a validation can raise.  `invalidInput` models the `TypeError`
raised when the descriptor itself is not inspectable
(`aiSystem.id` on `undefined`); `typeError m` models the `TypeError`
raised by calling the undefined method `m`. -/
inductive VError where
  | invalidInput
  | typeError : String → VError
deriving DecidableEq, Repr

/-- `performSafetyChecks` (lines 113–130): run the seven category checks;
when `context.regulatory` is truthy the code then calls
`this.checkRegulatoryCompliance`, a method defined nowhere in the
repository, so that path raises a `TypeError`. -/
def performSafetyChecks (aiSystem : AISystem) (context : Context) :
    Except VError SafetyChecks :=
  let checks : SafetyChecks :=
    { ethicalGuidelines := some (checkEthicalGuidelines aiSystem)
      dataPrivacy := some (checkDataPrivacy aiSystem)
      bias := some (checkBias aiSystem)
      transparency := some (checkTransparency aiSystem)
      humanControl := some (checkHumanControl aiSystem)
      robustness := some (checkRobustness aiSystem)
      accountability := some (checkAccountability aiSystem) }
  if context.regulatory then
    Except.error (VError.typeError "this.checkRegulatoryCompliance is not a function")
  else
    Except.ok checks

/-- The result object built by `validateSafety`; uuid, timestamp and the
constant `metadata` block are omitted, and the audit side effect is
modelled separately through `logAuditEvent`. -/
structure ValidationResult where
  systemId : Option String
  safetyStatus : String
  complianceScore : ℚ
  safetyChecks : SafetyChecks
  riskAssessment : RiskAssessment
  recommendations : List Recommendation
deriving DecidableEq, Repr

/-- `validateSafety` (lines 51–107).  A non-inspectable descriptor is the
`none` case and raises before the checks run; otherwise the checks,
aggregation, risk assessment and recommendations are computed and the
verdict compares the compliance score against the configured threshold. -/
def validateSafety (engine : Engine) (aiSystem : Option AISystem) (context : Context) :
    Except VError ValidationResult :=
  match aiSystem with
  | none => Except.error VError.invalidInput
  | some sys =>
    match performSafetyChecks sys context with
    | Except.error e => Except.error e
    | Except.ok safetyChecks =>
      let complianceScore := calculateComplianceScore safetyChecks
      let riskAssessment := assessRisk safetyChecks
      Except.ok
        { systemId := sys.id
          safetyStatus :=
            if complianceScore ≥ engine.config.complianceThreshold then "compliant"
            else "non-compliant"
          complianceScore := complianceScore
          safetyChecks := safetyChecks
          riskAssessment := riskAssessment
          recommendations := generateRecommendations safetyChecks }

/-! ## Specification-side definitions

Definitions in the `Spec` namespace transcribe the *specification's* wording
(the §4.1 penalty table, the weighted mean of §4.2, the two-pass
recommendation scheme of §4.4, …) so that the claims can be stated as
refinements of the source-embedded functions above against them. -/

namespace Spec

/-- One row of the §4.1 table: a sub-condition (flag absent/disabled), its
fixed multiplicative penalty factor, and the severity and message of the
issue appended when it fires. -/
structure SubCondition where
  cond : AISystem → Bool
  penalty : ℚ
  severity : Severity
  message : String

/-- The generic category check of §4.1: start with score `1.0`, multiply
the running score by the penalty factor of each firing sub-condition in
table order, append one issue of the stated severity per deduction, clamp
the final score to `≥ 0`, and derive the status as `pass` if the score is
`≥ 0.8`, `warning` if `≥ 0.6`, else `fail`. -/
def runCategoryCheck (table : List SubCondition) (sys : AISystem) : CategoryResult :=
  let firing := table.filter (fun r => r.cond sys)
  let score := firing.foldl (fun s r => s * r.penalty) 1
  let final := max score 0
  { score := final
    checks := firing.map (fun r => { type := r.severity, message := r.message })
    status := if final ≥ 8/10 then .pass else if final ≥ 6/10 then .warning else .fail }

/-- §4.1 rows for ethical guidelines. -/
def ethicalTable : List SubCondition :=
  [⟨noEthicalBoundaries, 8/10, .warning, "No ethical boundaries defined"⟩,
   ⟨noHarmPrevention, 6/10, .error, "Harm prevention mechanisms not implemented"⟩,
   ⟨noValuesAlignment, 9/10, .warning, "Human values alignment not documented"⟩]

/-- §4.1 rows for data privacy. -/
def dataPrivacyTable : List SubCondition :=
  [⟨noEncryption, 5/10, .error, "Data encryption not enabled"⟩,
   ⟨noDataMinimization, 8/10, .warning, "Data minimization principles not applied"⟩,
   ⟨noConsentManagement, 6/10, .error, "User consent management not implemented"⟩]

/-- §4.1 rows for bias. -/
def biasTable : List SubCondition :=
  [⟨noBiasTesting, 4/10, .error, "Bias testing not conducted"⟩,
   ⟨noFairnessMetrics, 8/10, .warning, "Fairness metrics not defined"⟩,
   ⟨noDatasetDiversity, 9/10, .warning, "Dataset diversity not validated"⟩]

/-- §4.1 rows for transparency. -/
def transparencyTable : List SubCondition :=
  [⟨noExplainability, 5/10, .error, "AI explainability not implemented"⟩,
   ⟨noDecisionLogging, 8/10, .warning, "Decision logging not implemented"⟩,
   ⟨noModelDocumentation, 9/10, .warning, "Model documentation incomplete"⟩]

/-- §4.1 rows for human control. -/
def humanControlTable : List SubCondition :=
  [⟨noHumanOversight, 3/10, .error, "Human oversight not implemented"⟩,
   ⟨noManualOverride, 5/10, .error, "Manual override not available"⟩,
   ⟨noEscalationProcedures, 9/10, .warning, "Escalation procedures not defined"⟩]

/-- §4.1 rows for robustness. -/
def robustnessTable : List SubCondition :=
  [⟨noAdversarialTesting, 8/10, .warning, "Adversarial testing not conducted"⟩,
   ⟨noErrorHandling, 6/10, .error, "Error handling mechanisms not implemented"⟩,
   ⟨noPerformanceMonitoring, 9/10, .warning, "Performance monitoring not implemented"⟩]

/-- §4.1 rows for accountability. -/
def accountabilityTable : List SubCondition :=
  [⟨noResponsibilityMatrix, 6/10, .error, "Responsibility matrix not defined"⟩,
   ⟨noAuditTrail, 5/10, .error, "Audit trail not enabled"⟩,
   ⟨noIncidentResponse, 8/10, .warning, "Incident response procedures not defined"⟩]

end Spec

lemma checkEthicalGuidelines_table (sys : AISystem) :
    checkEthicalGuidelines sys = Spec.runCategoryCheck Spec.ethicalTable sys := by
  unfold checkEthicalGuidelines Spec.runCategoryCheck Spec.ethicalTable ethicalScore ethicalIssues
  cases h1 : noEthicalBoundaries sys <;> cases h2 : noHarmPrevention sys <;>
    cases h3 : noValuesAlignment sys <;>
    simp [h1, h2, h3, List.filter, statusOf] <;> norm_num

lemma checkDataPrivacy_table (sys : AISystem) :
    checkDataPrivacy sys = Spec.runCategoryCheck Spec.dataPrivacyTable sys := by
  unfold checkDataPrivacy Spec.runCategoryCheck Spec.dataPrivacyTable dataPrivacyScore dataPrivacyIssues
  cases h1 : noEncryption sys <;> cases h2 : noDataMinimization sys <;>
    cases h3 : noConsentManagement sys <;>
    simp [h1, h2, h3, List.filter, statusOf] <;> norm_num

lemma checkBias_table (sys : AISystem) :
    checkBias sys = Spec.runCategoryCheck Spec.biasTable sys := by
  unfold checkBias Spec.runCategoryCheck Spec.biasTable biasScore biasIssues
  cases h1 : noBiasTesting sys <;> cases h2 : noFairnessMetrics sys <;>
    cases h3 : noDatasetDiversity sys <;>
    simp [h1, h2, h3, List.filter, statusOf] <;> norm_num

lemma checkTransparency_table (sys : AISystem) :
    checkTransparency sys = Spec.runCategoryCheck Spec.transparencyTable sys := by
  unfold checkTransparency Spec.runCategoryCheck Spec.transparencyTable transparencyScore transparencyIssues
  cases h1 : noExplainability sys <;> cases h2 : noDecisionLogging sys <;>
    cases h3 : noModelDocumentation sys <;>
    simp [h1, h2, h3, List.filter, statusOf] <;> norm_num

lemma checkHumanControl_table (sys : AISystem) :
    checkHumanControl sys = Spec.runCategoryCheck Spec.humanControlTable sys := by
  unfold checkHumanControl Spec.runCategoryCheck Spec.humanControlTable humanControlScore humanControlIssues
  cases h1 : noHumanOversight sys <;> cases h2 : noManualOverride sys <;>
    cases h3 : noEscalationProcedures sys <;>
    simp [h1, h2, h3, List.filter, statusOf] <;> norm_num

lemma checkRobustness_table (sys : AISystem) :
    checkRobustness sys = Spec.runCategoryCheck Spec.robustnessTable sys := by
  unfold checkRobustness Spec.runCategoryCheck Spec.robustnessTable robustnessScore robustnessIssues
  cases h1 : noAdversarialTesting sys <;> cases h2 : noErrorHandling sys <;>
    cases h3 : noPerformanceMonitoring sys <;>
    simp [h1, h2, h3, List.filter, statusOf] <;> norm_num

lemma checkAccountability_table (sys : AISystem) :
    checkAccountability sys = Spec.runCategoryCheck Spec.accountabilityTable sys := by
  unfold checkAccountability Spec.runCategoryCheck Spec.accountabilityTable accountabilityScore accountabilityIssues
  cases h1 : noResponsibilityMatrix sys <;> cases h2 : noAuditTrail sys <;>
    cases h3 : noIncidentResponse sys <;>
    simp [h1, h2, h3, List.filter, statusOf] <;> norm_num

/-- C1: every one of the 7 category checks starts with score 1.0,
multiplies the running score by the fixed penalty factor of each
sub-condition whose flag is absent/disabled — exactly per the §4.1 table —
appends exactly one issue of the stated severity per deduction, clamps the
final score to ≥ 0, and derives the status as pass if the score is ≥ 0.8,
warning if ≥ 0.6, else fail (`Spec.runCategoryCheck` transcribes that
procedure, the `Spec.…Table` lists transcribe the table). -/
theorem voidguard_C1 (sys : AISystem) :
    checkEthicalGuidelines sys = Spec.runCategoryCheck Spec.ethicalTable sys ∧
    checkDataPrivacy sys = Spec.runCategoryCheck Spec.dataPrivacyTable sys ∧
    checkBias sys = Spec.runCategoryCheck Spec.biasTable sys ∧
    checkTransparency sys = Spec.runCategoryCheck Spec.transparencyTable sys ∧
    checkHumanControl sys = Spec.runCategoryCheck Spec.humanControlTable sys ∧
    checkRobustness sys = Spec.runCategoryCheck Spec.robustnessTable sys ∧
    checkAccountability sys = Spec.runCategoryCheck Spec.accountabilityTable sys :=
  ⟨checkEthicalGuidelines_table sys, checkDataPrivacy_table sys, checkBias_table sys,
   checkTransparency_table sys, checkHumanControl_table sys, checkRobustness_table sys,
   checkAccountability_table sys⟩

lemma ethical_bounds (sys : AISystem) :
    0 < (checkEthicalGuidelines sys).score ∧ (checkEthicalGuidelines sys).score ≤ 1 ∧
    (checkEthicalGuidelines sys).score = ethicalScore sys ∧
    (checkEthicalGuidelines sys).status = statusOf (checkEthicalGuidelines sys).score := by
  unfold checkEthicalGuidelines ethicalScore
  cases h1 : noEthicalBoundaries sys <;> cases h2 : noHarmPrevention sys <;>
    cases h3 : noValuesAlignment sys <;>
    simp [h1, h2, h3, statusOf] <;> norm_num

lemma dataPrivacy_bounds (sys : AISystem) :
    0 < (checkDataPrivacy sys).score ∧ (checkDataPrivacy sys).score ≤ 1 ∧
    (checkDataPrivacy sys).score = dataPrivacyScore sys ∧
    (checkDataPrivacy sys).status = statusOf (checkDataPrivacy sys).score := by
  unfold checkDataPrivacy dataPrivacyScore
  cases h1 : noEncryption sys <;> cases h2 : noDataMinimization sys <;>
    cases h3 : noConsentManagement sys <;>
    simp [h1, h2, h3, statusOf] <;> norm_num

lemma bias_bounds (sys : AISystem) :
    0 < (checkBias sys).score ∧ (checkBias sys).score ≤ 1 ∧
    (checkBias sys).score = biasScore sys ∧
    (checkBias sys).status = statusOf (checkBias sys).score := by
  unfold checkBias biasScore
  cases h1 : noBiasTesting sys <;> cases h2 : noFairnessMetrics sys <;>
    cases h3 : noDatasetDiversity sys <;>
    simp [h1, h2, h3, statusOf] <;> norm_num

lemma transparency_bounds (sys : AISystem) :
    0 < (checkTransparency sys).score ∧ (checkTransparency sys).score ≤ 1 ∧
    (checkTransparency sys).score = transparencyScore sys ∧
    (checkTransparency sys).status = statusOf (checkTransparency sys).score := by
  unfold checkTransparency transparencyScore
  cases h1 : noExplainability sys <;> cases h2 : noDecisionLogging sys <;>
    cases h3 : noModelDocumentation sys <;>
    simp [h1, h2, h3, statusOf] <;> norm_num

lemma humanControl_bounds (sys : AISystem) :
    0 < (checkHumanControl sys).score ∧ (checkHumanControl sys).score ≤ 1 ∧
    (checkHumanControl sys).score = humanControlScore sys ∧
    (checkHumanControl sys).status = statusOf (checkHumanControl sys).score ∧
    (135/1000 : ℚ) ≤ (checkHumanControl sys).score := by
  unfold checkHumanControl humanControlScore
  cases h1 : noHumanOversight sys <;> cases h2 : noManualOverride sys <;>
    cases h3 : noEscalationProcedures sys <;>
    simp [h1, h2, h3, statusOf] <;> norm_num

lemma robustness_bounds (sys : AISystem) :
    0 < (checkRobustness sys).score ∧ (checkRobustness sys).score ≤ 1 ∧
    (checkRobustness sys).score = robustnessScore sys ∧
    (checkRobustness sys).status = statusOf (checkRobustness sys).score := by
  unfold checkRobustness robustnessScore
  cases h1 : noAdversarialTesting sys <;> cases h2 : noErrorHandling sys <;>
    cases h3 : noPerformanceMonitoring sys <;>
    simp [h1, h2, h3, statusOf] <;> norm_num

lemma accountability_bounds (sys : AISystem) :
    0 < (checkAccountability sys).score ∧ (checkAccountability sys).score ≤ 1 ∧
    (checkAccountability sys).score = accountabilityScore sys ∧
    (checkAccountability sys).status = statusOf (checkAccountability sys).score := by
  unfold checkAccountability accountabilityScore
  cases h1 : noResponsibilityMatrix sys <;> cases h2 : noAuditTrail sys <;>
    cases h3 : noIncidentResponse sys <;>
    simp [h1, h2, h3, statusOf] <;> norm_num

/-- C9: for every descriptor each of the 7 category scores is strictly
positive and at most 1, the `Math.max(score, 0)` clamp never changes the
running score (the stored `score` equals the unclamped running score),
deriving the status from the clamped score is equivalent to the source's
derivation from the unclamped one, the human-control score is bounded
below by 0.3 × 0.5 × 0.9 = 0.135, and that smallest value is reached (at
the all-absent descriptor). -/
theorem voidguard_C9 :
    (∀ sys : AISystem,
      (0 < (checkEthicalGuidelines sys).score ∧ (checkEthicalGuidelines sys).score ≤ 1 ∧
        (checkEthicalGuidelines sys).score = ethicalScore sys ∧
        (checkEthicalGuidelines sys).status = statusOf (checkEthicalGuidelines sys).score) ∧
      (0 < (checkDataPrivacy sys).score ∧ (checkDataPrivacy sys).score ≤ 1 ∧
        (checkDataPrivacy sys).score = dataPrivacyScore sys ∧
        (checkDataPrivacy sys).status = statusOf (checkDataPrivacy sys).score) ∧
      (0 < (checkBias sys).score ∧ (checkBias sys).score ≤ 1 ∧
        (checkBias sys).score = biasScore sys ∧
        (checkBias sys).status = statusOf (checkBias sys).score) ∧
      (0 < (checkTransparency sys).score ∧ (checkTransparency sys).score ≤ 1 ∧
        (checkTransparency sys).score = transparencyScore sys ∧
        (checkTransparency sys).status = statusOf (checkTransparency sys).score) ∧
      (0 < (checkHumanControl sys).score ∧ (checkHumanControl sys).score ≤ 1 ∧
        (checkHumanControl sys).score = humanControlScore sys ∧
        (checkHumanControl sys).status = statusOf (checkHumanControl sys).score ∧
        (135/1000 : ℚ) ≤ (checkHumanControl sys).score) ∧
      (0 < (checkRobustness sys).score ∧ (checkRobustness sys).score ≤ 1 ∧
        (checkRobustness sys).score = robustnessScore sys ∧
        (checkRobustness sys).status = statusOf (checkRobustness sys).score) ∧
      (0 < (checkAccountability sys).score ∧ (checkAccountability sys).score ≤ 1 ∧
        (checkAccountability sys).score = accountabilityScore sys ∧
        (checkAccountability sys).status = statusOf (checkAccountability sys).score)) ∧
    (checkHumanControl {}).score = 135/1000 := by
  constructor
  · intro sys
    exact ⟨ethical_bounds sys, dataPrivacy_bounds sys, bias_bounds sys,
      transparency_bounds sys, humanControl_bounds sys, robustness_bounds sys,
      accountability_bounds sys⟩
  · unfold checkHumanControl humanControlScore
    norm_num [noHumanOversight, noManualOverride, noEscalationProcedures]

lemma getRecommendedAction_bias (m : String) :
    getRecommendedAction "bias" m = "Review and address this safety concern" := rfl

lemma getRecommendedAction_transparency (m : String) :
    getRecommendedAction "transparency" m = "Review and address this safety concern" := rfl

lemma getRecommendedAction_robustness (m : String) :
    getRecommendedAction "robustness" m = "Review and address this safety concern" := rfl

lemma getRecommendedAction_accountability (m : String) :
    getRecommendedAction "accountability" m = "Review and address this safety concern" := rfl

/-- C10: the recommended-action table only has entries for the
`ethicalGuidelines`, `dataPrivacy` and `humanControl` categories, so every
issue produced by the bias, transparency, robustness and accountability
checks — and the escalation-procedures warning of human control — maps to
the generic fallback action. -/
theorem voidguard_C10 :
    actionMap.map Prod.fst = ["ethicalGuidelines", "dataPrivacy", "humanControl"] ∧
    (∀ sys : AISystem, ∀ i ∈ (checkBias sys).checks,
      getRecommendedAction "bias" i.message = "Review and address this safety concern") ∧
    (∀ sys : AISystem, ∀ i ∈ (checkTransparency sys).checks,
      getRecommendedAction "transparency" i.message = "Review and address this safety concern") ∧
    (∀ sys : AISystem, ∀ i ∈ (checkRobustness sys).checks,
      getRecommendedAction "robustness" i.message = "Review and address this safety concern") ∧
    (∀ sys : AISystem, ∀ i ∈ (checkAccountability sys).checks,
      getRecommendedAction "accountability" i.message = "Review and address this safety concern") ∧
    getRecommendedAction "humanControl" "Escalation procedures not defined" =
      "Review and address this safety concern" :=
  ⟨rfl,
   fun _ i _ => getRecommendedAction_bias i.message,
   fun _ i _ => getRecommendedAction_transparency i.message,
   fun _ i _ => getRecommendedAction_robustness i.message,
   fun _ i _ => getRecommendedAction_accountability i.message,
   rfl⟩

/-- Witness for C10 at a concrete input: the bias-testing error issue is
produced by the bias check on the all-absent descriptor and maps to the
generic fallback action. -/
theorem voidguard_C10_witness :
    getRecommendedAction "bias" (Issue.mk Severity.error "Bias testing not conducted").message =
      "Review and address this safety concern" :=
  voidguard_C10.2.1 {} ⟨Severity.error, "Bias testing not conducted"⟩ (by decide)

namespace Spec

/-- The categories actually present in a checks object, paired as
(weight, category score), in the fixed weight-table order of §3. -/
def presentPairs (sc : SafetyChecks) : List (ℚ × ℚ) :=
  weights.filterMap (fun entry => (sc.get entry.1).map (fun check => (entry.2, check.score)))

/-- Sum of the weights of the categories actually present. -/
def presentWeightSum (sc : SafetyChecks) : ℚ :=
  ((presentPairs sc).map Prod.fst).sum

/-- Weighted sum of the scores of the categories actually present. -/
def weightedSum (sc : SafetyChecks) : ℚ :=
  ((presentPairs sc).map (fun p => p.2 * p.1)).sum

end Spec

lemma complianceFold (sc : SafetyChecks) :
    ∀ (l : List (String × ℚ)) (a b : ℚ),
      l.foldl (fun (acc : ℚ × ℚ) (entry : String × ℚ) =>
        match sc.get entry.1 with
        | some check => (acc.1 + check.score * entry.2, acc.2 + entry.2)
        | none => acc) (a, b) =
      (a + ((l.filterMap (fun entry => (sc.get entry.1).map (fun check => (entry.2, check.score)))).map
          (fun p => p.2 * p.1)).sum,
       b + ((l.filterMap (fun entry => (sc.get entry.1).map (fun check => (entry.2, check.score)))).map
          Prod.fst).sum) := by
  intro l
  induction l with
  | nil => intro a b; simp
  | cons e t ih =>
    intro a b
    cases h : sc.get e.1 with
    | none => simp only [List.foldl_cons, h, List.filterMap_cons, Option.map_none', ih]
    | some c =>
      simp only [List.foldl_cons, h, List.filterMap_cons, Option.map_some', ih,
        List.map_cons, List.sum_cons, Prod.mk.injEq]
      constructor <;> ring

/-- C2: the compliance score is the weighted mean of the category scores
with the fixed §3 weights, normalized by the sum of the weights of the
categories actually present; with all 7 categories present that normalizer
is exactly 1, and with none present the score is 0. -/
theorem voidguard_C2 :
    (∀ sc : SafetyChecks,
      calculateComplianceScore sc =
        if 0 < Spec.presentWeightSum sc then Spec.weightedSum sc / Spec.presentWeightSum sc
        else 0) ∧
    (∀ c1 c2 c3 c4 c5 c6 c7 : CategoryResult,
      Spec.presentWeightSum
        ⟨some c1, some c2, some c3, some c4, some c5, some c6, some c7⟩ = 1) ∧
    calculateComplianceScore {} = 0 := by
  refine ⟨fun sc => ?_, fun c1 c2 c3 c4 c5 c6 c7 => ?_, ?_⟩
  · unfold calculateComplianceScore
    rw [complianceFold sc weights 0 0]
    simp only [zero_add]
    rfl
  · simp [Spec.presentWeightSum, Spec.presentPairs, weights, SafetyChecks.get]
    norm_num
  · rfl

namespace Spec

/-- §4.3: number of categories whose status is `fail` and which contain at
least one error-severity issue. -/
def criticalFailureCount (sc : SafetyChecks) : Nat :=
  sc.toList.countP (fun e =>
    e.2.status == Status.fail && e.2.checks.any (fun i => i.type == Severity.error))

/-- §4.3: total number of warning-severity issues across all categories. -/
def warningCount (sc : SafetyChecks) : Nat :=
  (sc.toList.map (fun e => e.2.checks.countP (fun i => i.type == Severity.warning))).sum

/-- §4.3 risk-level thresholds: `high` if criticalFailureCount > 2 or
warningCount > 5, else `medium` if criticalFailureCount > 0 or
warningCount > 2, else `low`. -/
def riskLevel (cf w : Nat) : RiskLevel :=
  if 2 < cf ∨ 5 < w then .high else if 0 < cf ∨ 2 < w then .medium else .low

end Spec

lemma warnings_foldl (l : List CategoryResult) :
    ∀ n : Nat,
      l.foldl (fun total check =>
        total + (check.checks.filter (fun c => c.type == Severity.warning)).length) n =
      n + (l.map (fun check =>
        (check.checks.filter (fun c => c.type == Severity.warning)).length)).sum := by
  induction l with
  | nil => intro n; simp
  | cons c t ih => intro n; simp [List.foldl_cons, ih, Nat.add_assoc]

lemma riskLevel_bool (cf w : Nat) :
    (if cf > 2 || w > 5 then RiskLevel.high
     else if cf > 0 || w > 2 then RiskLevel.medium else RiskLevel.low) =
    Spec.riskLevel cf w := by
  simp only [Spec.riskLevel, gt_iff_lt, Bool.or_eq_true, decide_eq_true_eq]

/-- C3: the risk assessment counts as critical exactly the categories that
are `fail` and contain an error-severity issue, counts all
warning-severity issues, and classifies the level by the §4.3 thresholds. -/
theorem voidguard_C3 (sc : SafetyChecks) :
    (assessRisk sc).criticalFailures = Spec.criticalFailureCount sc ∧
    (assessRisk sc).warnings = Spec.warningCount sc ∧
    (assessRisk sc).level =
      Spec.riskLevel (Spec.criticalFailureCount sc) (Spec.warningCount sc) := by
  have hcf : (assessRisk sc).criticalFailures = Spec.criticalFailureCount sc := by
    show ((sc.toList.map Prod.snd).filter _).length = _
    rw [List.filter_map, List.length_map, Spec.criticalFailureCount,
      List.countP_eq_length_filter]
    rfl
  have hw : (assessRisk sc).warnings = Spec.warningCount sc := by
    show (sc.toList.map Prod.snd).foldl _ 0 = _
    rw [warnings_foldl, Nat.zero_add, Spec.warningCount, List.map_map]
    simp only [List.countP_eq_length_filter]
    rfl
  have hlevel : (assessRisk sc).level =
      Spec.riskLevel (assessRisk sc).criticalFailures (assessRisk sc).warnings :=
    riskLevel_bool _ _
  rw [hcf, hw] at hlevel
  exact ⟨hcf, hw, hlevel⟩

namespace Spec

/-- A recommendation as built by both passes of §4.4. -/
def mkRecommendation (p : Priority) (category : String) (i : Issue) : Recommendation :=
  { priority := p, category := category, issue := i.message
    action := getRecommendedAction category i.message }

/-- §4.4 pass 1: for each category with status `fail`, one `high`-priority
recommendation per error-severity issue inside it. -/
def pass1 (sc : SafetyChecks) : List Recommendation :=
  sc.toList.flatMap (fun e =>
    if e.2.status = Status.fail then
      (e.2.checks.filter (fun i => i.type == Severity.error)).map
        (mkRecommendation .high e.1)
    else [])

/-- §4.4 pass 2: for every category regardless of status, one
`medium`-priority recommendation per warning-severity issue. -/
def pass2 (sc : SafetyChecks) : List Recommendation :=
  sc.toList.flatMap (fun e =>
    (e.2.checks.filter (fun i => i.type == Severity.warning)).map
      (mkRecommendation .medium e.1))

end Spec

lemma generateRecommendations_two_pass (sc : SafetyChecks) :
    generateRecommendations sc = Spec.pass1 sc ++ Spec.pass2 sc := by
  unfold generateRecommendations Spec.pass1 Spec.pass2 Spec.mkRecommendation
  simp only [List.nil_append, beq_iff_eq]

lemma pass1_mem_iff (sc : SafetyChecks) (r : Recommendation) :
    r ∈ Spec.pass1 sc ↔
      ∃ e ∈ sc.toList, e.2.status = Status.fail ∧
        ∃ i ∈ e.2.checks, i.type = Severity.error ∧
          r = Spec.mkRecommendation Priority.high e.1 i := by
  simp only [Spec.pass1, List.mem_flatMap, List.mem_ite_nil_right, List.mem_map,
    List.mem_filter, beq_iff_eq]
  constructor
  · rintro ⟨e, he, hfail, i, ⟨hi, htype⟩, rfl⟩
    exact ⟨e, he, hfail, i, hi, htype, rfl⟩
  · rintro ⟨e, he, hfail, i, hi, htype, rfl⟩
    exact ⟨e, he, hfail, i, ⟨hi, htype⟩, rfl⟩

lemma pass2_mem_iff (sc : SafetyChecks) (r : Recommendation) :
    r ∈ Spec.pass2 sc ↔
      ∃ e ∈ sc.toList, ∃ i ∈ e.2.checks, i.type = Severity.warning ∧
        r = Spec.mkRecommendation Priority.medium e.1 i := by
  simp only [Spec.pass2, List.mem_flatMap, List.mem_map, List.mem_filter, beq_iff_eq]
  constructor
  · rintro ⟨e, he, i, ⟨hi, htype⟩, rfl⟩
    exact ⟨e, he, i, hi, htype, rfl⟩
  · rintro ⟨e, he, i, hi, htype, rfl⟩
    exact ⟨e, he, i, ⟨hi, htype⟩, rfl⟩

/-- C4: the recommendation list is pass 1 followed by pass 2; pass-1
entries are exactly the high-priority recommendations, one per error issue
inside a failing category; pass-2 entries are exactly the medium-priority
recommendations, one per warning issue in any category; every
high-priority recommendation in the output stems from a failing category
(so an error issue inside a non-failing category yields none), and all
high-priority recommendations precede all medium-priority ones. -/
theorem voidguard_C4 (sc : SafetyChecks) :
    generateRecommendations sc = Spec.pass1 sc ++ Spec.pass2 sc ∧
    (∀ r ∈ Spec.pass1 sc, r.priority = Priority.high) ∧
    (∀ r ∈ Spec.pass2 sc, r.priority = Priority.medium) ∧
    (∀ r, r ∈ Spec.pass1 sc ↔
      ∃ e ∈ sc.toList, e.2.status = Status.fail ∧
        ∃ i ∈ e.2.checks, i.type = Severity.error ∧
          r = Spec.mkRecommendation Priority.high e.1 i) ∧
    (∀ r, r ∈ Spec.pass2 sc ↔
      ∃ e ∈ sc.toList, ∃ i ∈ e.2.checks, i.type = Severity.warning ∧
        r = Spec.mkRecommendation Priority.medium e.1 i) ∧
    (∀ r ∈ generateRecommendations sc, r.priority = Priority.high →
      ∃ e ∈ sc.toList, e.1 = r.category ∧ e.2.status = Status.fail) := by
  have h1 : ∀ r ∈ Spec.pass1 sc, r.priority = Priority.high := by
    intro r hr
    obtain ⟨e, _, _, i, _, _, rfl⟩ := (pass1_mem_iff sc r).1 hr
    rfl
  have h2 : ∀ r ∈ Spec.pass2 sc, r.priority = Priority.medium := by
    intro r hr
    obtain ⟨e, _, i, _, _, rfl⟩ := (pass2_mem_iff sc r).1 hr
    rfl
  refine ⟨generateRecommendations_two_pass sc, h1, h2, pass1_mem_iff sc, pass2_mem_iff sc, ?_⟩
  intro r hr hhigh
  rw [generateRecommendations_two_pass sc, List.mem_append] at hr
  rcases hr with hr | hr
  · obtain ⟨e, he, hfail, i, _, _, rfl⟩ := (pass1_mem_iff sc r).1 hr
    exact ⟨e, he, rfl, hfail⟩
  · rw [h2 r hr] at hhigh
    exact absurd hhigh (by simp)

/-- Witness for C4 at a concrete checks object: with a failing bias
category holding an error issue and a passing robustness category holding
a warning issue, the single pass-1 recommendation has high priority. -/
theorem voidguard_C4_witness :
    (Spec.mkRecommendation Priority.high "bias" ⟨Severity.error, "Bias testing not conducted"⟩).priority
      = Priority.high :=
  (voidguard_C4
    { bias := some ⟨0, [⟨Severity.error, "Bias testing not conducted"⟩], Status.fail⟩
      robustness := some ⟨1, [⟨Severity.warning, "Adversarial testing not conducted"⟩], Status.pass⟩ }).2.1
    (Spec.mkRecommendation Priority.high "bias" ⟨Severity.error, "Bias testing not conducted"⟩)
    (by decide)

lemma logAuditEvent_eq_drop (log : List AuditEvent) (e : AuditEvent) :
    logAuditEvent log e = (log ++ [e]).drop ((log ++ [e]).length - 1000) := by
  show (if (log ++ [e]).length > 1000
      then (log ++ [e]).drop ((log ++ [e]).length - 1000)
      else log ++ [e]) =
    (log ++ [e]).drop ((log ++ [e]).length - 1000)
  split
  · rfl
  · next hl =>
    rw [Nat.sub_eq_zero_of_le (by omega), List.drop_zero]

lemma logAuditEvent_length_le (log : List AuditEvent) (e : AuditEvent) :
    (logAuditEvent log e).length ≤ 1000 ∨ (logAuditEvent log e).length = log.length + 1 := by
  rw [logAuditEvent_eq_drop]
  simp only [List.length_drop, List.length_append, List.length_cons, List.length_nil]
  omega

lemma appendAll_eq_drop (events : List AuditEvent) :
    ∀ log : List AuditEvent, log.length ≤ 1000 →
      appendAll log events = (log ++ events).drop ((log ++ events).length - 1000) := by
  induction events with
  | nil =>
    intro log h
    have h0 : (log ++ []).length - 1000 = 0 := by
      simp only [List.append_nil]
      omega
    rw [h0, List.drop_zero, List.append_nil]
    rfl
  | cons e t ih =>
    intro log h
    have hlen : (logAuditEvent log e).length ≤ 1000 := by
      rcases logAuditEvent_length_le log e with h1 | h1
      · exact h1
      · rw [h1]
        by_cases hc : log.length + 1 ≤ 1000
        · exact hc
        · exfalso
          have hq : log.length = 1000 := by omega
          have h2 := logAuditEvent_eq_drop log e
          have h3 : (logAuditEvent log e).length = 1000 := by
            rw [h2]
            simp only [List.length_drop, List.length_append, List.length_cons,
              List.length_nil]
            omega
          omega
    have hassoc : log ++ e :: t = (log ++ [e]) ++ t := by simp
    rw [hassoc]
    show appendAll (logAuditEvent log e) t = _
    rw [ih (logAuditEvent log e) hlen, logAuditEvent_eq_drop log e]
    rw [← List.drop_append_of_le_length (Nat.sub_le _ _)]
    rw [List.drop_drop]
    exact congrArg (fun n => List.drop n ((log ++ [e]) ++ t))
      (by simp only [List.length_append, List.length_drop, List.length_cons,
            List.length_nil]
          omega)

/-- C5: starting from any audit log within capacity, any sequence of
appends leaves exactly the last 1000 of the concatenated event sequence
(strict FIFO eviction from the oldest end, order preserved) and never more
than 1000 entries; in particular, appending 1500 events to an empty log
and querying with no filters returns exactly the last 1000 events in their
original relative order. -/
theorem voidguard_C5 :
    (∀ (events log : List AuditEvent), log.length ≤ 1000 →
      appendAll log events = (log ++ events).drop ((log ++ events).length - 1000) ∧
      (appendAll log events).length ≤ 1000) ∧
    (∀ events : List AuditEvent, events.length = 1500 →
      getAuditLog (appendAll [] events) {} = events.drop 500) := by
  have hmain : ∀ (events log : List AuditEvent), log.length ≤ 1000 →
      appendAll log events = (log ++ events).drop ((log ++ events).length - 1000) ∧
      (appendAll log events).length ≤ 1000 := by
    intro events log h
    refine ⟨appendAll_eq_drop events log h, ?_⟩
    rw [appendAll_eq_drop events log h]
    simp only [List.length_drop]
    omega
  refine ⟨hmain, fun events h1500 => ?_⟩
  have h := (hmain events [] (by simp)).1
  simp only [List.nil_append] at h
  rw [h, h1500]
  show getAuditLog (events.drop 500) {} = events.drop 500
  rfl

/-- Witness for C5: appending 1500 concrete events to the empty log keeps
at most 1000 entries, and the unfiltered query returns the last 1000. -/
theorem voidguard_C5_witness :
    (appendAll [] (List.replicate 1500 ({} : AuditEvent))).length ≤ 1000 ∧
    getAuditLog (appendAll [] (List.replicate 1500 ({} : AuditEvent))) {} =
      (List.replicate 1500 ({} : AuditEvent)).drop 500 :=
  ⟨(voidguard_C5.1 (List.replicate 1500 {}) [] (by simp)).2,
   voidguard_C5.2 (List.replicate 1500 {}) (by simp only [List.length_replicate])⟩

/-- C6 (the claim as stated is contradicted by the code): a non-inspectable
descriptor does raise `invalidInput` and every validation with a
regulatory-free context returns a result, but any well-formed descriptor
together with a context whose `regulatory` flag is set makes
`performSafetyChecks` call `this.checkRegulatoryCompliance`, a method
defined nowhere in the repository, so `validateSafety` raises a
`TypeError` instead of returning a result. -/
theorem voidguard_C6 :
    validateSafety {} (some {}) { regulatory := true } =
      Except.error (VError.typeError "this.checkRegulatoryCompliance is not a function") ∧
    (∀ (engine : Engine) (context : Context),
      validateSafety engine none context = Except.error VError.invalidInput) ∧
    (∀ (engine : Engine) (sys : AISystem),
      (validateSafety engine (some sys) { regulatory := false }).isOk = true) :=
  ⟨rfl, fun _ _ => rfl, fun _ _ => rfl⟩

/-- The §3 verdict invariant, stated over a validation outcome: a produced
result is `compliant` exactly when its compliance score reaches the
threshold; a raised error produces no result. -/
def verdictMatchesThreshold (threshold : ℚ) : Except VError ValidationResult → Prop
  | Except.ok r => (r.safetyStatus = "compliant" ↔ threshold ≤ r.complianceScore)
  | Except.error _ => True

/-- C7: for every validation result produced by `validateSafety`, the
verdict is `compliant` if and only if the compliance score is at least the
engine's configured `complianceThreshold`. -/
theorem voidguard_C7 (engine : Engine) (aiSystem : Option AISystem) (context : Context) :
    verdictMatchesThreshold engine.config.complianceThreshold
      (validateSafety engine aiSystem context) := by
  cases aiSystem with
  | none => trivial
  | some sys =>
    simp only [validateSafety]
    cases hr : performSafetyChecks sys context with
    | error e => exact trivial
    | ok checks =>
      show (if calculateComplianceScore checks ≥ engine.config.complianceThreshold
          then "compliant" else "non-compliant") = "compliant" ↔
        engine.config.complianceThreshold ≤ calculateComplianceScore checks
      split
      · next hc => simp only [hc, iff_true]
      · next hc =>
        constructor
        · intro hs
          exact absurd hs (by decide)
        · intro hle
          exact absurd hle hc

/-- The fully-compliant descriptor of §8: every flag present and enabled,
`ethicalBoundaries` non-empty, every nested toggle enabled. -/
def fullSys : AISystem :=
  { id := some "sys-1"
    ethicalBoundaries := some ["no-harm"]
    harmPrevention := true
    valuesAlignment := true
    encryption := some ⟨true⟩
    dataMinimization := true
    consentManagement := true
    biasTesting := some ⟨true⟩
    fairnessMetrics := true
    datasetDiversity := true
    explainability := some ⟨true⟩
    decisionLogging := true
    modelDocumentation := true
    humanOversight := some ⟨true⟩
    manualOverride := true
    escalationProcedures := true
    adversarialTesting := some ⟨true⟩
    errorHandling := true
    performanceMonitoring := true
    responsibilityMatrix := true
    auditTrail := some ⟨true⟩
    incidentResponse := true }

/-- The checks object produced for `fullSys`: every category scores 1 with
no issues. -/
def fullChecks : SafetyChecks :=
  { ethicalGuidelines := some ⟨1, [], .pass⟩
    dataPrivacy := some ⟨1, [], .pass⟩
    bias := some ⟨1, [], .pass⟩
    transparency := some ⟨1, [], .pass⟩
    humanControl := some ⟨1, [], .pass⟩
    robustness := some ⟨1, [], .pass⟩
    accountability := some ⟨1, [], .pass⟩ }

lemma performSafetyChecks_fullSys :
    performSafetyChecks fullSys {} = Except.ok fullChecks := by
  unfold performSafetyChecks fullChecks
  have h1 : checkEthicalGuidelines fullSys = ⟨1, [], .pass⟩ := by
    unfold checkEthicalGuidelines ethicalScore ethicalIssues
    norm_num [noEthicalBoundaries, noHarmPrevention, noValuesAlignment, fullSys, statusOf]
  have h2 : checkDataPrivacy fullSys = ⟨1, [], .pass⟩ := by
    unfold checkDataPrivacy dataPrivacyScore dataPrivacyIssues
    norm_num [noEncryption, noDataMinimization, noConsentManagement, fullSys, statusOf]
  have h3 : checkBias fullSys = ⟨1, [], .pass⟩ := by
    unfold checkBias biasScore biasIssues
    norm_num [noBiasTesting, noFairnessMetrics, noDatasetDiversity, fullSys, statusOf]
  have h4 : checkTransparency fullSys = ⟨1, [], .pass⟩ := by
    unfold checkTransparency transparencyScore transparencyIssues
    norm_num [noExplainability, noDecisionLogging, noModelDocumentation, fullSys, statusOf]
  have h5 : checkHumanControl fullSys = ⟨1, [], .pass⟩ := by
    unfold checkHumanControl humanControlScore humanControlIssues
    norm_num [noHumanOversight, noManualOverride, noEscalationProcedures, fullSys, statusOf]
  have h6 : checkRobustness fullSys = ⟨1, [], .pass⟩ := by
    unfold checkRobustness robustnessScore robustnessIssues
    norm_num [noAdversarialTesting, noErrorHandling, noPerformanceMonitoring, fullSys, statusOf]
  have h7 : checkAccountability fullSys = ⟨1, [], .pass⟩ := by
    unfold checkAccountability accountabilityScore accountabilityIssues
    norm_num [noResponsibilityMatrix, noAuditTrail, noIncidentResponse, fullSys, statusOf]
  rw [h1, h2, h3, h4, h5, h6, h7]
  rfl

lemma compliancePairs_fullChecks :
    weights.filterMap
      (fun entry => (fullChecks.get entry.1).map (fun check => (entry.2, check.score))) =
      [(2/10, 1), (15/100, 1), (15/100, 1), (15/100, 1), (2/10, 1), (1/10, 1), (5/100, 1)] :=
  rfl

lemma calculateComplianceScore_fullChecks : calculateComplianceScore fullChecks = 1 := by
  unfold calculateComplianceScore
  rw [complianceFold fullChecks weights 0 0, compliancePairs_fullChecks]
  norm_num

lemma assessRisk_fullChecks :
    assessRisk fullChecks = { level := RiskLevel.low, criticalFailures := 0, warnings := 0 } :=
  rfl

lemma generateRecommendations_fullChecks : generateRecommendations fullChecks = [] := rfl

/-- C8: on the fully-compliant descriptor (every §4.1 flag present and
enabled), validation at the default configuration returns compliance score
1, verdict `compliant` (default threshold 0.95), risk level `low` with
zero critical failures and zero warnings, and no recommendations. -/
theorem voidguard_C8 :
    validateSafety {} (some fullSys) {} =
      Except.ok
        { systemId := some "sys-1"
          safetyStatus := "compliant"
          complianceScore := 1
          safetyChecks := fullChecks
          riskAssessment := { level := RiskLevel.low, criticalFailures := 0, warnings := 0 }
          recommendations := [] } := by
  simp only [validateSafety, performSafetyChecks_fullSys, calculateComplianceScore_fullChecks,
    assessRisk_fullChecks, generateRecommendations_fullChecks]
  norm_num [fullSys]
